import Mathlib

/-!
# Verification of the golucene storage-abstraction core

Shallow embedding of `src/core/util/bit.go` (package `util` bit utilities and
the `store` package fragment it is concatenated with: IOContext, Lock,
Directory, SlicedIndexInput), together with proofs settling the frozen claims
about it.

Conventions:
* Go `int64` values are embedded as `Int`; where two's-complement wrapping
  matters the 64-bit bit pattern is an explicit `Nat` below `2^64`
  (`toUint64` / `ofUint64`).
* Go `panic` (and the `assert` / `assert2` helpers, which panic) is embedded
  as the `.error` branch of `Except String` or as `PanicOr.panic`.
* Go interface methods supplied by external collaborators (the backing
  `Lock.Obtain`, the backend `OpenInput`, the `BufferedIndexInput` template
  which lives outside the given source) are modelled as explicit function
  parameters or, where noted, `Modelled from the spec`.
-/

/-! ## BitOps (util/BitUtil.java port) -/

/-- The `BYTE_COUNTS` table from the source: bits per byte, 256 entries. -/
def BYTE_COUNTS : List Nat :=
  [0, 1, 1, 2, 1, 2, 2, 3, 1, 2, 2, 3, 2, 3, 3, 4,
   1, 2, 2, 3, 2, 3, 3, 4, 2, 3, 3, 4, 3, 4, 4, 5,
   1, 2, 2, 3, 2, 3, 3, 4, 2, 3, 3, 4, 3, 4, 4, 5,
   2, 3, 3, 4, 3, 4, 4, 5, 3, 4, 4, 5, 4, 5, 5, 6,
   1, 2, 2, 3, 2, 3, 3, 4, 2, 3, 3, 4, 3, 4, 4, 5,
   2, 3, 3, 4, 3, 4, 4, 5, 3, 4, 4, 5, 4, 5, 5, 6,
   2, 3, 3, 4, 3, 4, 4, 5, 3, 4, 4, 5, 4, 5, 5, 6,
   3, 4, 4, 5, 4, 5, 5, 6, 4, 5, 5, 6, 5, 6, 6, 7,
   1, 2, 2, 3, 2, 3, 3, 4, 2, 3, 3, 4, 3, 4, 4, 5,
   2, 3, 3, 4, 3, 4, 4, 5, 3, 4, 4, 5, 4, 5, 5, 6,
   2, 3, 3, 4, 3, 4, 4, 5, 3, 4, 4, 5, 4, 5, 5, 6,
   3, 4, 4, 5, 4, 5, 5, 6, 4, 5, 5, 6, 5, 6, 6, 7,
   2, 3, 3, 4, 3, 4, 4, 5, 3, 4, 4, 5, 4, 5, 5, 6,
   3, 4, 4, 5, 4, 5, 5, 6, 4, 5, 5, 6, 5, 6, 6, 7,
   3, 4, 4, 5, 4, 5, 5, 6, 4, 5, 5, 6, 5, 6, 6, 7,
   4, 5, 5, 6, 5, 6, 6, 7, 5, 6, 6, 7, 6, 7, 7, 8]

/-- `func BitCount(b byte) int`: `BYTE_COUNTS[b&0xFF]`.  A Go `byte` is in
`[0,255]`; we embed it as a `Nat` and keep the source's mask. -/
def BitCount (b : Nat) : Nat :=
  BYTE_COUNTS.getD (b &&& 0xFF) 0

/-- The inner loop of `pop_array` for one word `v`:
`for v > 0 { popCount += BitCount(byte(v & 0xff)); v >>= 8 }`.
For `v > 0` the Go arithmetic right shift `v >> 8` agrees with euclidean
division by 256, and `byte(v & 0xff)` is `v % 256`.  Note the loop condition
is the *signed* comparison `v > 0`: a negative `v` never enters the loop. -/
def popWord (v : Int) : Nat :=
  if h : v > 0 then BitCount (v % 256).toNat + popWord (v / 256)
  else 0
termination_by v.toNat
decreasing_by
  omega

/-- `func pop_array(arr []int64) int`: accumulate `popWord` over the slice. -/
def pop_array (arr : List Int) : Nat :=
  arr.foldl (fun popCount v => popCount + popWord v) 0

/-- Follows the spec's words (refinement reference, *not* a source
translation): "the sum of `BitCount` applied to every byte of every word,
processed least-significant-byte first per word".  A 64-bit word's bytes are
the 8 bytes of its two's-complement bit pattern. -/
def specPopArray (arr : List Int) : Nat :=
  arr.foldl
    (fun acc v =>
      acc + (List.range 8).foldl
        (fun a i => a + BitCount (((v % (2 ^ 64 : Int)).toNat >>> (8 * i)) &&& 0xFF)) 0)
    0

/-- Two's-complement 64-bit bit pattern of an integer (`uint64(l)` in Go). -/
def toUint64 (l : Int) : Nat :=
  (l % (2 ^ 64 : Int)).toNat

/-- Signed 64-bit value of a bit pattern (`int64(u)` in Go). -/
def ofUint64 (n : Nat) : Int :=
  if n < 2 ^ 63 then (n : Int) else (n : Int) - 2 ^ 64

/-- `(l >> 63) ^ (l << 1)` on the 64-bit pattern `p` of `l`: the arithmetic
shift `l >> 63` is all-ones when the sign bit is set and zero otherwise,
`l << 1` wraps modulo `2^64`, `^` is bitwise xor. -/
def zigZagEncodePat (p : Nat) : Nat :=
  (if p < 2 ^ 63 then 0 else 2 ^ 64 - 1) ^^^ ((2 * p) % 2 ^ 64)

/-- `int64(uint64(l)>>1) ^ -(l & 1)` on the 64-bit pattern `p` of `l`: the
logical shift `uint64(l) >> 1` is `p / 2`, and `-(l & 1)` is all-ones when
the low bit is set and zero otherwise. -/
def zigZagDecodePat (p : Nat) : Nat :=
  (p / 2) ^^^ (if p % 2 = 1 then 2 ^ 64 - 1 else 0)

/-- `func ZigZagEncodeLong(l int64) int64 { return (l >> 63) ^ (l << 1) }`. -/
def ZigZagEncodeLong (l : Int) : Int :=
  ofUint64 (zigZagEncodePat (toUint64 l))

/-- `func ZigZagDecodeLong(l int64) int64 { return int64(uint64(l)>>1) ^ -(l & 1) }`. -/
def ZigZagDecodeLong (l : Int) : Int :=
  ofUint64 (zigZagDecodePat (toUint64 l))

/-! ## IOContext (store/IOContext.java port) -/

def IO_CONTEXT_TYPE_MERGE : Int := 1
def IO_CONTEXT_TYPE_READ : Int := 2
def IO_CONTEXT_TYPE_FLUSH : Int := 3
def IO_CONTEXT_TYPE_DEFAULT : Int := 4

/-- `type FlushInfo struct` from the source. -/
structure FlushInfo where
  NumDocs : Int
  EstimatedSegmentSize : Int
deriving DecidableEq

/-- `type MergeInfo struct` from the source. -/
structure MergeInfo where
  TotalDocCount : Int
  EstimatedMergeBytes : Int
  IsExternal : Bool
  MergeMaxNumSegments : Int
deriving DecidableEq

/-- `type IOContext struct`: the `context` kind (a Go `IOContextType`, an
integer), optional merge/flush payloads (Go nilable pointers become
`Option`), and the `readOnce` flag. -/
structure IOContext where
  context : Int
  MergeInfo : Option MergeInfo
  FlushInfo : Option FlushInfo
  readOnce : Bool
deriving DecidableEq

/-- `func NewIOContextForFlush(flushInfo *FlushInfo) IOContext`.
`assert(flushInfo != nil)` panics with "assert fail" on a nil pointer; the
panic is embedded as `Except.error`.  Fields not assigned in the Go composite
literal keep their zero value (`nil` / `false`). -/
def NewIOContextForFlush (flushInfo : Option FlushInfo) : Except String IOContext :=
  match flushInfo with
  | none => .error "assert fail"
  | some _ =>
    .ok { context := IO_CONTEXT_TYPE_FLUSH, MergeInfo := none,
          FlushInfo := flushInfo, readOnce := false }

/-- `func NewIOContextFromType(context IOContextType) IOContext`.
The two `assert2` calls panic (embedded as `Except.error`) on the `MERGE` and
`FLUSH` kinds, which require their dedicated constructors. -/
def NewIOContextFromType (context : Int) : Except String IOContext :=
  if context = IO_CONTEXT_TYPE_MERGE then
    .error "Use NewIOContextForMerge() to create a MERGE IOContext"
  else if context = IO_CONTEXT_TYPE_FLUSH then
    .error "Use NewIOContextForFlush() to create a FLUSH IOContext"
  else
    .ok { context := context, MergeInfo := none, FlushInfo := none,
          readOnce := false }

/-- `func NewIOContextBool(readOnce bool) IOContext`: always succeeds, kind
fixed to READ. -/
def NewIOContextBool (readOnce : Bool) : IOContext :=
  { context := IO_CONTEXT_TYPE_READ, MergeInfo := none, FlushInfo := none,
    readOnce := readOnce }

/-- `func NewIOContextForMerge(mergeInfo *MergeInfo) IOContext`.
`assert2(mergeInfo != nil, ...)` panics (embedded as `Except.error`) on nil. -/
def NewIOContextForMerge (mergeInfo : Option MergeInfo) : Except String IOContext :=
  match mergeInfo with
  | none => .error "MergeInfo must not be nil if context is MERGE"
  | some _ =>
    .ok { context := IO_CONTEXT_TYPE_MERGE, MergeInfo := mergeInfo,
          FlushInfo := none, readOnce := false }

/-- The `IO_CONTEXT_READONCE` package-level singleton. -/
def IO_CONTEXT_READONCE : IOContext := NewIOContextBool true

/-- The `IO_CONTEXT_READ` package-level singleton. -/
def IO_CONTEXT_READ : IOContext := NewIOContextBool false

/-- The `IO_CONTEXT_DEFAULT` package-level singleton: the (successful) value
of `NewIOContextFromType(IO_CONTEXT_TYPE_DEFAULT)`. -/
def IO_CONTEXT_DEFAULT : IOContext :=
  { context := IO_CONTEXT_TYPE_DEFAULT, MergeInfo := none, FlushInfo := none,
    readOnce := false }

/-! ## Lock (store/Lock.java port)

The backing `Lock.Obtain` is an external capability (an interface method
implemented outside this source).  We embed it as a trace: call number `k`
(counting from 0) returns the pair `(ok, err)` and leaves the `LockImpl`
`failureReason` field holding `frAfter` (concrete lock implementations may
record a root-cause error there; the field itself is in this source). -/

/-- How long `obtain()` waits, in milliseconds, between attempts
(`LOCK_POOL_INTERVAL` in the source). -/
def LOCK_POOL_INTERVAL : Int := 1000

/-- Sentinel to try forever (`LOCK_OBTAIN_WAIT_FOREVER`). -/
def LOCK_OBTAIN_WAIT_FOREVER : Int := -1

/-- Outcome of one call to the backing `Obtain`: the returned `(ok, err)`
pair, and the value of the `LockImpl.failureReason` field after the call. -/
structure ObtainStep where
  ok : Bool
  err : Option String
  frAfter : Option String
deriving DecidableEq

/-- Error values produced by `LockImpl.ObtainWithin`: either an error returned
by the backing `Obtain` (propagated unchanged), or the timeout error built by
`errors.New` from "Lock obtain time out: <lock>" plus, when the
`failureReason` field is non-nil, ": <failureReason>". -/
inductive LockError where
  | obtainFailed (e : String)
  | obtainTimeout (lockDesc : String) (reason : Option String)
deriving DecidableEq

/-- The `(locked, err)` named results of `ObtainWithin`, plus the number of
calls made to the backing `Obtain` (for counting poll attempts). -/
structure ObtainWithinResult where
  locked : Bool
  err : Option LockError
  attempts : Nat
deriving DecidableEq

/-- The polling loop of `ObtainWithin`:
`for sleepCount := int64(0); !locked; locked, err = lock.self.Obtain() { ... }`.
State entering each condition check: most recent `(locked, err)` from the
backing `Obtain`, the current `failureReason` `fr`, the loop counter
`sleepCount`, and `attempts` = number of backing calls made so far (also the
index of the next call).  `fuel` bounds the number of iterations we unfold;
`none` means the loop was still running (it can genuinely run forever when
`lockWaitTimeout = LOCK_OBTAIN_WAIT_FOREVER`). -/
def lockObtainLoop (backing : Nat → ObtainStep) (lockDesc : String)
    (lockWaitTimeout maxSleepCount : Int) :
    Nat → Bool → Option String → Option String → Int → Nat →
    Option ObtainWithinResult
  | 0, _, _, _, _, _ => none
  | fuel + 1, locked, err, fr, sleepCount, attempts =>
    if locked then
      some { locked := locked, err := err.map .obtainFailed, attempts := attempts }
    else if lockWaitTimeout ≠ LOCK_OBTAIN_WAIT_FOREVER ∧ sleepCount ≥ maxSleepCount then
      some { locked := false, err := some (.obtainTimeout lockDesc fr),
             attempts := attempts }
    else
      let s := backing attempts
      lockObtainLoop backing lockDesc lockWaitTimeout maxSleepCount
        fuel s.ok s.err s.frAfter (sleepCount + 1) (attempts + 1)

/-- `func (lock *LockImpl) ObtainWithin(lockWaitTimeout int64) (locked bool, err error)`.
Order of operations, exactly as in the source: clear `failureReason`, make one
backing `Obtain` call, return its `(locked, err)` if `err != nil`, *then*
assert the timeout precondition (`assert2` panics, embedded as
`Except.error`), compute `maxSleepCount := lockWaitTimeout / LOCK_POOL_INTERVAL`
(Go division truncates toward zero: `Int.tdiv`), and poll. -/
def LockImpl.ObtainWithin (backing : Nat → ObtainStep) (lockDesc : String)
    (lockWaitTimeout : Int) (fuel : Nat) :
    Except String (Option ObtainWithinResult) :=
  let s := backing 0
  if s.err ≠ none then
    .ok (some { locked := s.ok, err := s.err.map .obtainFailed, attempts := 1 })
  else if ¬(lockWaitTimeout ≥ 0 ∨ lockWaitTimeout = LOCK_OBTAIN_WAIT_FOREVER) then
    .error ("lockWaitTimeout should be LOCK_OBTAIN_WAIT_FOREVER or a non-negative number (got "
      ++ toString lockWaitTimeout ++ ")")
  else
    let maxSleepCount := lockWaitTimeout.tdiv LOCK_POOL_INTERVAL
    .ok (lockObtainLoop backing lockDesc lockWaitTimeout maxSleepCount
      fuel s.ok s.err s.frAfter 0 1)

/-! ## Directory (store/Directory.java port) -/

/-- Result of a Go function that can `panic`: either the panic message or a
normal return value. -/
inductive PanicOr (α : Type) where
  | panic (msg : String)
  | ret (a : α)
deriving DecidableEq

/-- The slice of the `LockFactory` interface that `DirectoryImpl` consumes in
this source: `Clear(name string) error`.  (The other interface methods —
`Make`, `SetLockPrefix`, `LockPrefix` — are not needed by any claim and their
implementations live outside this source.) -/
structure LockFactory where
  clear : String → Option String

/-- `type DirectoryImpl struct`: the open flag and the (nilable) lock
factory.  The embedded `directoryService` (the backend-supplied `OpenInput`)
is passed explicitly to the operations that use it. -/
structure DirectoryImpl where
  IsOpen : Bool
  lockFactory : Option LockFactory

/-- `func NewDirectoryImpl(self directoryService) *DirectoryImpl`: starts
open, with no lock factory. -/
def NewDirectoryImpl : DirectoryImpl :=
  { IsOpen := true, lockFactory := none }

/-- `func (d *DirectoryImpl) ClearLock(name string) error`:
`if d.lockFactory != nil { return d.lockFactory.Clear(name) }; return nil`. -/
def DirectoryImpl.ClearLock (d : DirectoryImpl) (name : String) : Option String :=
  match d.lockFactory with
  | some f => f.clear name
  | none => none

/-- `func (d *DirectoryImpl) EnsureOpen()`: panics with "this Directory is
closed" when the open flag is false, otherwise returns normally with no
effect. -/
def DirectoryImpl.EnsureOpen (d : DirectoryImpl) : PanicOr Unit :=
  if !d.IsOpen then .panic "this Directory is closed"
  else .ret ()

/-! ## IndexInput slicing (store port, continued)

The `BufferedIndexInput` template and the base `IndexInput` interface are not
part of this source (only their callers are), so the pieces `readInternal`
consumes are modelled from the spec:

* `IndexInputState` — Modelled from the spec: an `IndexInput` is "an open,
  position-addressable byte source" with a cursor; we give it a concrete byte
  list and a position.
* `IndexInputState.Seek` — Modelled from the spec: "`Seek(pos)` moves the
  cursor".
* `IndexInputState.ReadBytesBuffered` — Modelled from the spec: "a read
  always observes the bytes at the current `FilePointer` and advances it by
  exactly the bytes consumed"; reading past the end of the source is an
  end-of-file condition of the *base* reader.
* the `filePointer` field of `SlicedIndexInput` — Modelled from the spec:
  the `BufferedIndexInput` logical cursor returned by `FilePointer()`,
  starting at 0 on a fresh reader. -/

/-- Modelled from the spec: a base `IndexInput` as a byte list plus cursor. -/
structure IndexInputState where
  data : List Nat
  pos : Int
deriving DecidableEq

/-- Modelled from the spec: `Seek` moves the cursor. -/
def IndexInputState.Seek (b : IndexInputState) (p : Int) : IndexInputState :=
  { b with pos := p }

/-- Errors surfaced by a read through a slice: the slice's own end-of-file
error (`errors.New("read past EOF: %v", in)` in `readInternal`) or a failure
of the delegated base read. -/
inductive ReadError where
  | sliceEOF (msg : String)
  | baseEOF (msg : String)
deriving DecidableEq

/-- Modelled from the spec: `ReadBytesBuffered` returns the `n` bytes at the
cursor and advances it by exactly `n`; a read past the end of the backing
bytes is the base reader's end-of-file condition. -/
def IndexInputState.ReadBytesBuffered (b : IndexInputState) (n : Nat) :
    Except ReadError (List Nat × IndexInputState) :=
  if 0 ≤ b.pos ∧ b.pos.toNat + n ≤ b.data.length then
    .ok ((b.data.drop b.pos.toNat).take n, { b with pos := b.pos + n })
  else
    .error (.baseEOF "read past EOF: base")

/-- `type SlicedIndexInput struct`: a base reader (generic, since the source
wraps any `IndexInput`), the window `fileOffset`/`length`, the diagnostic
description, and the buffered-input cursor (`filePointer`, modelled from the
spec as `FilePointer()` of the embedded `BufferedIndexInput`). -/
structure SlicedIndexInput (β : Type) where
  desc : String
  base : β
  fileOffset : Int
  length : Int
  filePointer : Int
deriving DecidableEq

/-- `func newSlicedIndexInput(desc string, base IndexInput, fileOffset, length int64)`:
builds the diagnostic description
`"SlicedIndexInput(<desc> slice=<fileOffset>:<fileOffset+length>)"` (the
`%v` rendering of the base reader is abstracted away) and starts with a fresh
buffered cursor at 0. -/
def newSlicedIndexInput {β : Type} (desc : String) (base : β)
    (fileOffset length : Int) : SlicedIndexInput β :=
  { desc := "SlicedIndexInput(" ++ desc ++ " slice=" ++ toString fileOffset
      ++ ":" ++ toString (fileOffset + length) ++ ")",
    base := base, fileOffset := fileOffset, length := length,
    filePointer := 0 }

/-- `func (in *SlicedIndexInput) Length() int64`: the fixed window length. -/
def SlicedIndexInput.Length {β : Type} (inp : SlicedIndexInput β) : Int :=
  inp.length

/-- `func (in *SlicedIndexInput) seekInternal(pos int64) error`: a no-op. -/
def SlicedIndexInput.seekInternal {β : Type} (inp : SlicedIndexInput β)
    (pos : Int) : Option String :=
  none

/-- `func (in *SlicedIndexInput) readInternal(buf []byte) (err error)`:
```
start := in.FilePointer()
if start+int64(len(buf)) > in.length {
    return errors.New(fmt.Sprintf("read past EOF: %v", in))
}
in.base.Seek(in.fileOffset + start)
return in.base.ReadBytesBuffered(buf, false)
```
The destination buffer is represented by its length `n`; a successful read
returns the bytes read and the reader with its updated base. -/
def SlicedIndexInput.readInternal (inp : SlicedIndexInput IndexInputState)
    (n : Nat) :
    Except ReadError (List Nat × SlicedIndexInput IndexInputState) :=
  let start := inp.filePointer
  if start + (n : Int) > inp.length then
    .error (.sliceEOF ("read past EOF: " ++ inp.desc))
  else
    match (inp.base.Seek (inp.fileOffset + start)).ReadBytesBuffered n with
    | .error e => .error e
    | .ok (bytes, b2) => .ok (bytes, { inp with base := b2 })

/-- `type simpleIndexInputSlicer struct { base IndexInput }`. -/
structure simpleIndexInputSlicer (β : Type) where
  base : β

/-- `func (is simpleIndexInputSlicer) openSlice(desc string, offset, length int64) IndexInput`:
constructs a `SlicedIndexInput` over `[offset, offset+length)` of the base
(the source first formats `"SlicedIndexInput(<desc> in <base>)"`; the `%v`
rendering of the base reader is abstracted away). -/
def simpleIndexInputSlicer.openSlice {β : Type} (is : simpleIndexInputSlicer β)
    (desc : String) (offset length : Int) : SlicedIndexInput β :=
  newSlicedIndexInput ("SlicedIndexInput(" ++ desc ++ " in base)") is.base
    offset length

/-- `func (is simpleIndexInputSlicer) openFullSlice() IndexInput`: the base
reader itself. -/
def simpleIndexInputSlicer.openFullSlice {β : Type}
    (is : simpleIndexInputSlicer β) : β :=
  is.base

/-- `func (d *DirectoryImpl) CreateSlicer(name string, context IOContext) (is IndexInputSlicer, err error)`.
The body begins with the unconditional
`panic("Should be overrided, I guess")`; everything after it —
`d.EnsureOpen()`, `base, err := d.OpenInput(name, context)`, error
propagation, and wrapping `base` in a `simpleIndexInputSlicer` — is
unreachable dead code.  The backend-supplied `OpenInput` (the embedded
`directoryService`) is passed explicitly; it is never called. -/
def DirectoryImpl.CreateSlicer {β : Type} (d : DirectoryImpl)
    (openInput : String → IOContext → Except String β)
    (name : String) (context : IOContext) :
    PanicOr (Except String (simpleIndexInputSlicer β)) :=
  .panic "Should be overrided, I guess"

/-! ## Helper lemmas -/

/-- Xor with the all-ones 64-bit mask is complement: `a ^^^ (2^64-1) = 2^64-1-a`. -/
theorem uint64_xor_ones (a : Nat) (h : a < 2 ^ 64) :
    a ^^^ (2 ^ 64 - 1) = 2 ^ 64 - 1 - a := by
  have h1 : (~~~(BitVec.ofNat 64 a)).toNat = 2 ^ 64 - 1 - a := by
    rw [BitVec.toNat_not, BitVec.toNat_ofNat, Nat.mod_eq_of_lt h]
  have h2 : (~~~(BitVec.ofNat 64 a)) = (BitVec.ofNat 64 a) ^^^ (BitVec.allOnes 64) := by
    rw [BitVec.xor_allOnes]
  rw [h2, BitVec.toNat_xor, BitVec.toNat_ofNat, BitVec.toNat_allOnes,
    Nat.mod_eq_of_lt h] at h1
  exact h1

/-- Round trip pattern-to-value-to-pattern, for patterns below `2^64`. -/
theorem toUint64_ofUint64 (n : Nat) (h : n < 2 ^ 64) :
    toUint64 (ofUint64 n) = n := by
  unfold toUint64 ofUint64
  split <;> omega

/-- Round trip value-to-pattern-to-value, for values in the `int64` range. -/
theorem ofUint64_toUint64 (l : Int) (h1 : -(2 ^ 63) ≤ l) (h2 : l < 2 ^ 63) :
    ofUint64 (toUint64 l) = l := by
  unfold toUint64 ofUint64
  split <;> omega

/-- Every bit pattern produced by `toUint64` is below `2^64`. -/
theorem toUint64_lt (l : Int) : toUint64 l < 2 ^ 64 := by
  unfold toUint64
  omega

/-- Encoding a pattern with clear sign bit doubles it. -/
theorem zigZagEncodePat_of_lt (p : Nat) (h : p < 2 ^ 63) :
    zigZagEncodePat p = 2 * p := by
  unfold zigZagEncodePat
  rw [if_pos h, Nat.mod_eq_of_lt (by omega), Nat.zero_xor]

/-- Encoding a pattern with set sign bit gives `2*(2^64-1-p) + 1`. -/
theorem zigZagEncodePat_of_ge (p : Nat) (h1 : 2 ^ 63 ≤ p) (h2 : p < 2 ^ 64) :
    zigZagEncodePat p = 2 * (2 ^ 64 - 1 - p) + 1 := by
  unfold zigZagEncodePat
  rw [if_neg (by omega)]
  have hm : (2 * p) % 2 ^ 64 = 2 * p - 2 ^ 64 := by omega
  rw [hm, Nat.xor_comm, uint64_xor_ones (2 * p - 2 ^ 64) (by omega)]
  omega

/-- The encoded pattern stays below `2^64`. -/
theorem zigZagEncodePat_lt (p : Nat) (h : p < 2 ^ 64) :
    zigZagEncodePat p < 2 ^ 64 := by
  by_cases hlt : p < 2 ^ 63
  · rw [zigZagEncodePat_of_lt p hlt]
    omega
  · rw [zigZagEncodePat_of_ge p (by omega) h]
    omega

/-- Bit-pattern level round trip: decoding inverts encoding. -/
theorem zigZagDecodePat_encodePat (p : Nat) (h : p < 2 ^ 64) :
    zigZagDecodePat (zigZagEncodePat p) = p := by
  by_cases hlt : p < 2 ^ 63
  · rw [zigZagEncodePat_of_lt p hlt]
    unfold zigZagDecodePat
    rw [if_neg (by omega), Nat.xor_zero]
    omega
  · rw [zigZagEncodePat_of_ge p (by omega) h]
    unfold zigZagDecodePat
    rw [if_pos (by omega)]
    have hq : (2 * (2 ^ 64 - 1 - p) + 1) / 2 = 2 ^ 64 - 1 - p := by omega
    rw [hq, uint64_xor_ones (2 ^ 64 - 1 - p) (by omega)]
    omega

/-- If every backing `Obtain` call up to index `m` fails without error, the
polling loop keeps polling until `sleepCount` reaches `maxSleepCount = m` and
then returns the timeout error built from the `failureReason` left by the
most recent backing call (index `m`), having made `m + 1` calls in total. -/
theorem lockObtainLoop_times_out (backing : Nat → ObtainStep)
    (lockDesc : String) (t : Int) (m : Nat)
    (ht : t ≠ LOCK_OBTAIN_WAIT_FOREVER)
    (hfail : ∀ k, k ≤ m → (backing k).ok = false ∧ (backing k).err = none) :
    ∀ (fuel c : Nat), c ≤ m → m - c < fuel →
      lockObtainLoop backing lockDesc t (m : Int) fuel false none
          ((backing c).frAfter) (c : Int) (c + 1)
        = some { locked := false,
                 err := some (.obtainTimeout lockDesc ((backing m).frAfter)),
                 attempts := m + 1 } := by
  intro fuel
  induction fuel with
  | zero =>
    intro c _ hf
    omega
  | succ fuel ih =>
    intro c hc hf
    by_cases hcm : c = m
    · subst hcm
      simp only [lockObtainLoop]
      rw [if_neg (by simp), if_pos ⟨ht, le_refl _⟩]
    · have hlt : c < m := lt_of_le_of_ne hc hcm
      have h1 := hfail (c + 1) (by omega)
      have h2 := ih (c + 1) (by omega) (by omega)
      simp only [lockObtainLoop]
      rw [if_neg (by simp), if_neg (by omega)]
      rw [h1.1, h1.2]
      push_cast at h2 ⊢
      exact h2

/-- `ObtainWithin` on a non-negative timeout whose backing `Obtain` fails
without error on every poll: it returns `(false, timeout-error)` after
`maxSleepCount + 1` backing calls, with the timeout error carrying the
failure reason left by the last call (`maxSleepCount = timeout / 1000`). -/
theorem obtainWithin_times_out (backing : Nat → ObtainStep)
    (lockDesc : String) (t : Int) (fuel : Nat) (ht : 0 ≤ t)
    (hfuel : (t.tdiv LOCK_POOL_INTERVAL).toNat < fuel)
    (hfail : ∀ k, k ≤ (t.tdiv LOCK_POOL_INTERVAL).toNat →
      (backing k).ok = false ∧ (backing k).err = none) :
    LockImpl.ObtainWithin backing lockDesc t fuel
      = .ok (some { locked := false,
                    err := some (.obtainTimeout lockDesc
                      ((backing (t.tdiv LOCK_POOL_INTERVAL).toNat).frAfter)),
                    attempts := (t.tdiv LOCK_POOL_INTERVAL).toNat + 1 }) := by
  have h0 := hfail 0 (by omega)
  have htd : (0 : Int) ≤ t.tdiv LOCK_POOL_INTERVAL :=
    Int.tdiv_nonneg ht (by norm_num [LOCK_POOL_INTERVAL])
  have hcast : ((t.tdiv LOCK_POOL_INTERVAL).toNat : Int)
      = t.tdiv LOCK_POOL_INTERVAL := Int.toNat_of_nonneg htd
  have hloop := lockObtainLoop_times_out backing lockDesc t
    (t.tdiv LOCK_POOL_INTERVAL).toNat
    (by unfold LOCK_OBTAIN_WAIT_FOREVER; omega) hfail fuel 0 (by omega)
    (by omega)
  simp only [LockImpl.ObtainWithin, h0.1, h0.2]
  rw [if_neg (by simp), if_neg (by omega)]
  rw [hcast] at hloop
  simpa using hloop

/-! ## Claim theorems -/

/-- C2: for every 64-bit signed integer `v` (in `[-2^63, 2^63)`), including
`MIN_INT64`, `MAX_INT64`, `0` and `-1`,
`ZigZagDecodeLong (ZigZagEncodeLong v) = v`. -/
theorem zigzag_decode_encode_roundtrip (v : Int)
    (h1 : -(2 ^ 63) ≤ v) (h2 : v < 2 ^ 63) :
    ZigZagDecodeLong (ZigZagEncodeLong v) = v := by
  unfold ZigZagEncodeLong ZigZagDecodeLong
  have hp : toUint64 v < 2 ^ 64 := toUint64_lt v
  rw [toUint64_ofUint64 _ (zigZagEncodePat_lt _ hp),
    zigZagDecodePat_encodePat _ hp, ofUint64_toUint64 v h1 h2]

/-- C2 witness: the round trip, instantiated at `MIN_INT64`. -/
theorem zigzag_decode_encode_roundtrip_witness :
    -(2 ^ 63) ≤ (-9223372036854775808 : Int)
    ∧ (-9223372036854775808 : Int) < 2 ^ 63
    ∧ ZigZagDecodeLong (ZigZagEncodeLong (-9223372036854775808 : Int))
        = (-9223372036854775808 : Int) :=
  ⟨by norm_num, by norm_num,
   zigzag_decode_encode_roundtrip (-9223372036854775808 : Int)
     (by norm_num) (by norm_num)⟩

/-- C1 (code bug): the claim (and the source's own doc comment, "Returns the
number of set bits in a slice of int64") requires `pop_array` to count the
set bits of words whose sign bit is set, i.e. the sum of `BitCount` over all
their bytes.  On the word `-1` — all 64 bits set, so 64 by the spec's own
byte-sum (`specPopArray`) — the signed loop condition `for v > 0` is false
immediately and `pop_array` returns 0. -/
theorem pop_array_drops_negative_words :
    pop_array [(-1 : Int)] = 0 ∧ specPopArray [(-1 : Int)] = 64 := by
  constructor
  · show 0 + popWord (-1 : Int) = 0
    rw [popWord]
    norm_num
  · decide

/-- C3: `NewIOContextForFlush(nil)` and `NewIOContextForMerge(nil)` panic
(invalid argument); `NewIOContextFromType(MERGE)` and
`NewIOContextFromType(FLUSH)` panic (invalid argument);
`NewIOContextFromType(READ)` and `NewIOContextFromType(DEFAULT)` succeed and
the returned contexts carry no `MergeInfo` and no `FlushInfo`. -/
theorem ioContext_constructors_enforce_preconditions :
    NewIOContextForFlush none = .error "assert fail"
    ∧ NewIOContextForMerge none
        = .error "MergeInfo must not be nil if context is MERGE"
    ∧ NewIOContextFromType IO_CONTEXT_TYPE_MERGE
        = .error "Use NewIOContextForMerge() to create a MERGE IOContext"
    ∧ NewIOContextFromType IO_CONTEXT_TYPE_FLUSH
        = .error "Use NewIOContextForFlush() to create a FLUSH IOContext"
    ∧ NewIOContextFromType IO_CONTEXT_TYPE_READ
        = .ok { context := IO_CONTEXT_TYPE_READ, MergeInfo := none,
                FlushInfo := none, readOnce := false }
    ∧ NewIOContextFromType IO_CONTEXT_TYPE_DEFAULT
        = .ok { context := IO_CONTEXT_TYPE_DEFAULT, MergeInfo := none,
                FlushInfo := none, readOnce := false } :=
  ⟨rfl, rfl, rfl, rfl, rfl, rfl⟩

/-- C9: `EnsureOpen` panics ("this Directory is closed") exactly when the
directory's open flag is false, and returns normally without effect when it
is open. -/
theorem ensureOpen_panics_iff_closed (d : DirectoryImpl) :
    (d.IsOpen = false → d.EnsureOpen = .panic "this Directory is closed")
    ∧ (d.IsOpen = true → d.EnsureOpen = .ret ()) := by
  constructor <;> intro h <;> simp [DirectoryImpl.EnsureOpen, h]

/-- C9 witness: a closed directory's `EnsureOpen` panics; an open one's
returns normally. -/
theorem ensureOpen_panics_iff_closed_witness :
    ({ IsOpen := false, lockFactory := none } : DirectoryImpl).EnsureOpen
        = .panic "this Directory is closed"
    ∧ ({ IsOpen := true, lockFactory := none } : DirectoryImpl).EnsureOpen
        = .ret () :=
  ⟨(ensureOpen_panics_iff_closed _).1 rfl,
   (ensureOpen_panics_iff_closed _).2 rfl⟩

/-- C10: `ClearLock` on a directory whose lock factory was never set returns
a nil error (and invokes no factory), rather than failing or panicking. -/
theorem clearLock_nil_lockFactory_returns_nil (d : DirectoryImpl)
    (name : String) (h : d.lockFactory = none) :
    d.ClearLock name = none := by
  simp [DirectoryImpl.ClearLock, h]

/-- C10 witness: a fresh `DirectoryImpl` (no lock factory) clears a lock with
a nil error. -/
theorem clearLock_nil_lockFactory_returns_nil_witness :
    NewDirectoryImpl.lockFactory = none
    ∧ NewDirectoryImpl.ClearLock "write.lock" = none :=
  ⟨rfl, clearLock_nil_lockFactory_returns_nil NewDirectoryImpl "write.lock" rfl⟩

/-- C4 counterexample: the claim says a negative `lockWaitTimeout` other than
`LOCK_OBTAIN_WAIT_FOREVER` fails with an invalid-argument condition
"regardless of what the backing Obtain would return".  But `ObtainWithin`
calls the backing `Obtain` once *before* asserting the precondition: with
timeout `-5` and a backing `Obtain` that returns the error "disk offline",
it returns that error as an ordinary `(false, err)` result — no
invalid-argument panic (`Except.error`) occurs. -/
theorem obtainWithin_invalid_timeout_counterexample :
    LockImpl.ObtainWithin
        (fun _ => { ok := false, err := some "disk offline", frAfter := none })
        "NativeFSLock" (-5) 10
      = .ok (some { locked := false, err := some (.obtainFailed "disk offline"),
                    attempts := 1 }) :=
  rfl

/-- C4 (amended): provided the initial backing `Obtain` call returns no
error, `ObtainWithin` with a negative `lockWaitTimeout` other than
`LOCK_OBTAIN_WAIT_FOREVER` panics with the invalid-argument message before
any polling begins (whatever `ok` the initial call returned). -/
theorem obtainWithin_invalid_timeout_panics (backing : Nat → ObtainStep)
    (lockDesc : String) (t : Int) (fuel : Nat)
    (herr : (backing 0).err = none) (h1 : t < 0)
    (h2 : t ≠ LOCK_OBTAIN_WAIT_FOREVER) :
    LockImpl.ObtainWithin backing lockDesc t fuel
      = .error ("lockWaitTimeout should be LOCK_OBTAIN_WAIT_FOREVER or a non-negative number (got "
          ++ toString t ++ ")") := by
  simp only [LockImpl.ObtainWithin, herr]
  rw [if_neg (by simp), if_pos (by unfold LOCK_OBTAIN_WAIT_FOREVER at h2 ⊢; omega)]

/-- C4 witness: the amended theorem at timeout `-5` with a backing `Obtain`
returning `(true, nil)`. -/
theorem obtainWithin_invalid_timeout_panics_witness :
    (((fun _ => { ok := true, err := none, frAfter := none }) : Nat → ObtainStep) 0).err = none
    ∧ (-5 : Int) < 0
    ∧ (-5 : Int) ≠ LOCK_OBTAIN_WAIT_FOREVER
    ∧ LockImpl.ObtainWithin
        (fun _ => { ok := true, err := none, frAfter := none }) "lock" (-5) 10
      = .error ("lockWaitTimeout should be LOCK_OBTAIN_WAIT_FOREVER or a non-negative number (got "
          ++ toString (-5 : Int) ++ ")") :=
  ⟨rfl, by norm_num, by decide,
   obtainWithin_invalid_timeout_panics _ "lock" (-5) 10 rfl (by norm_num)
     (by decide)⟩

/-- C5: when `ObtainWithin` times out (non-negative timeout, every poll's
backing `Obtain` returning `(false, nil)`), the timeout error it returns
carries the failure reason recorded by the most recent backing `Obtain`
attempt whenever one is available: if the `failureReason` field holds `r`
after the last call, the error is `obtainTimeout lockDesc (some r)`. -/
theorem obtainWithin_timeout_error_includes_failure_reason
    (backing : Nat → ObtainStep) (lockDesc : String) (t : Int) (r : String)
    (fuel : Nat) (ht : 0 ≤ t)
    (hfuel : (t.tdiv LOCK_POOL_INTERVAL).toNat < fuel)
    (hfail : ∀ k, k ≤ (t.tdiv LOCK_POOL_INTERVAL).toNat →
      (backing k).ok = false ∧ (backing k).err = none)
    (hr : (backing (t.tdiv LOCK_POOL_INTERVAL).toNat).frAfter = some r) :
    LockImpl.ObtainWithin backing lockDesc t fuel
      = .ok (some { locked := false,
                    err := some (.obtainTimeout lockDesc (some r)),
                    attempts := (t.tdiv LOCK_POOL_INTERVAL).toNat + 1 }) := by
  rw [obtainWithin_times_out backing lockDesc t fuel ht hfuel hfail, hr]

/-- C5 witness: a 1500-ms timeout against a backing `Obtain` that always
fails recording the reason "held by another process": the returned timeout
error carries that reason. -/
theorem obtainWithin_timeout_error_includes_failure_reason_witness :
    LockImpl.ObtainWithin
        (fun _ => { ok := false, err := none,
                    frAfter := some "held by another process" })
        "write.lock" 1500 10
      = .ok (some { locked := false,
                    err := some (.obtainTimeout "write.lock"
                      (some "held by another process")),
                    attempts := 2 }) :=
  obtainWithin_timeout_error_includes_failure_reason _ "write.lock" 1500
    "held by another process" 10 (by norm_num) (by decide)
    (fun _ _ => ⟨rfl, rfl⟩) rfl

/-- C6: a backing `Obtain` that always returns `(false, nil)` causes
`ObtainWithin(2500)` — with the 1000-ms poll interval, so
`maxSleepCount = 2500 / 1000 = 2` — to make exactly 3 backing `Obtain`
attempts (hence at least 3) and then return `ok = false` with a timeout
error.  (Real-time sleeping is outside the embedding; `fuel = 100` amply
covers the bounded loop.) -/
theorem obtainWithin_2500_makes_three_attempts (backing : Nat → ObtainStep)
    (lockDesc : String)
    (hfail : ∀ k, (backing k).ok = false ∧ (backing k).err = none) :
    LockImpl.ObtainWithin backing lockDesc 2500 100
      = .ok (some { locked := false,
                    err := some (.obtainTimeout lockDesc ((backing 2).frAfter)),
                    attempts := 3 }) := by
  have h := obtainWithin_times_out backing lockDesc 2500 100 (by norm_num)
    (by decide) (fun k _ => hfail k)
  have h2 : ((2500 : Int).tdiv LOCK_POOL_INTERVAL).toNat = 2 := by decide
  rw [h2] at h
  exact h

/-- C6 witness: the constantly failing backing `Obtain` with no recorded
failure reason: 3 attempts, then `(false, timeout)`. -/
theorem obtainWithin_2500_makes_three_attempts_witness :
    LockImpl.ObtainWithin
        (fun _ => { ok := false, err := none, frAfter := none })
        "write.lock" 2500 100
      = .ok (some { locked := false,
                    err := some (.obtainTimeout "write.lock" none),
                    attempts := 3 }) :=
  obtainWithin_2500_makes_three_attempts _ "write.lock" (fun _ => ⟨rfl, rfl⟩)

/-- C7: a read through a `SlicedIndexInput` fails with the slice's
end-of-file error exactly when `FilePointer() + len(buf) > length`; otherwise
`readInternal` seeks the base reader to `fileOffset + FilePointer()` and
returns exactly what the delegated base read of `len(buf)` bytes returns. -/
theorem readInternal_eof_iff_out_of_window
    (inp : SlicedIndexInput IndexInputState) (n : Nat) :
    ((∃ msg, inp.readInternal n = .error (.sliceEOF msg))
        ↔ inp.filePointer + (n : Int) > inp.length)
    ∧ (inp.filePointer + (n : Int) ≤ inp.length →
        inp.readInternal n
          = match (inp.base.Seek (inp.fileOffset + inp.filePointer)).ReadBytesBuffered n with
            | .error e => .error e
            | .ok (bytes, b2) => .ok (bytes, { inp with base := b2 })) := by
  unfold SlicedIndexInput.readInternal
  by_cases h : inp.filePointer + (n : Int) > inp.length
  · rw [if_pos h]
    exact ⟨⟨fun _ => h, fun _ => ⟨_, rfl⟩⟩, fun hle => absurd h (by omega)⟩
  · rw [if_neg h]
    refine ⟨⟨?_, fun hgt => absurd hgt h⟩, fun _ => rfl⟩
    rintro ⟨msg, hmsg⟩
    unfold IndexInputState.ReadBytesBuffered at hmsg
    split at hmsg
    · rename_i e heq
      split at heq <;> simp_all
    · simp at hmsg

/-- C7 witness (the spec's own example): a base reader over bytes `0..99`
and a slice `[20, 50)`; reading 30 bytes at slice position 0 delegates to the
base at absolute offset 20 and succeeds with bytes `20..49`. -/
theorem readInternal_eof_iff_out_of_window_witness :
    (newSlicedIndexInput "f"
        ({ data := List.range 100, pos := 0 } : IndexInputState)
        20 30).filePointer + (30 : Int)
      ≤ (newSlicedIndexInput "f"
          ({ data := List.range 100, pos := 0 } : IndexInputState)
          20 30).length
    ∧ (newSlicedIndexInput "f"
        ({ data := List.range 100, pos := 0 } : IndexInputState)
        20 30).readInternal 30
      = match (({ data := List.range 100, pos := 0 } : IndexInputState).Seek
            (20 + 0)).ReadBytesBuffered 30 with
        | .error e => .error e
        | .ok (bytes, b2) =>
          .ok (bytes, { newSlicedIndexInput "f"
              ({ data := List.range 100, pos := 0 } : IndexInputState)
              20 30 with base := b2 }) :=
  ⟨by decide,
   (readInternal_eof_iff_out_of_window
     (newSlicedIndexInput "f"
       ({ data := List.range 100, pos := 0 } : IndexInputState) 20 30)
     30).2 (by decide)⟩

/-- C8 counterexample: the claim says the default `CreateSlicer` opens a full
input via `OpenInput` and returns a slicer over it, but at this concrete
input (an open directory, an `OpenInput` that succeeds) it panics with
"Should be overrided, I guess" instead of returning a slicer — the described
behavior is unreachable dead code after the panic. -/
theorem createSlicer_panics_counterexample :
    NewDirectoryImpl.CreateSlicer
      (fun _ _ => .ok ({ data := List.range 100, pos := 0 } : IndexInputState))
      "segments" IO_CONTEXT_READ
      = .panic "Should be overrided, I guess" :=
  rfl

/-- C8 (amended): `DirectoryImpl.CreateSlicer` unconditionally panics with
"Should be overrided, I guess" (never calling `OpenInput`); the
`simpleIndexInputSlicer` that its dead code would have built does have the
claimed behavior: `openFullSlice` returns the same base reader, and
`openSlice(desc, offset, length)` constructs a `SlicedIndexInput` over that
reader bounded to `[offset, offset+length)` with a fresh cursor. -/
theorem createSlicer_panics_and_simple_slicer_spec {β : Type}
    (d : DirectoryImpl) (openInput : String → IOContext → Except String β)
    (name : String) (ctx : IOContext) (is : simpleIndexInputSlicer β)
    (desc : String) (offset length : Int) :
    d.CreateSlicer openInput name ctx = .panic "Should be overrided, I guess"
    ∧ is.openFullSlice = is.base
    ∧ (is.openSlice desc offset length).base = is.base
    ∧ (is.openSlice desc offset length).fileOffset = offset
    ∧ (is.openSlice desc offset length).length = length
    ∧ (is.openSlice desc offset length).filePointer = 0 :=
  ⟨rfl, rfl, rfl, rfl, rfl, rfl⟩
